import Mathlib

/-!
Verification of UFEDKMLmerge (src/UFEDKMLmerge.py): a shallow embedding of
the KML merge pipeline — placemark extraction with a size-dependent parse
strategy, fan-out/fan-in merging with per-source failure isolation, output
assembly and naming, and the Excel report — together with theorems settling
the specification's claims about it.

XML documents are modelled as ordered trees of elements (tag in lxml's
Clark notation `{namespace}localname`, attribute list, child list) and text
nodes.  A source file is a name, a byte size, and either a parsed tree or
`none` (malformed XML / I/O failure, which `parse_kml_file` and
`count_placemarks_in_file` both absorb via their `except` clauses).
-/

namespace UFEDKMLmerge

/-- XML tree node: an element (tag, attributes, children) or a text node. -/
inductive XNode : Type where
  | elem (tag : String) (attrs : List (String × String)) (children : List XNode) : XNode
  | text (s : String) : XNode
deriving Repr

mutual

/-- Decidable equality on XML nodes (the automatic derivation does not
handle the nested occurrence of `List XNode`). -/
def decEqXNode : (a b : XNode) → Decidable (a = b)
  | .elem t1 a1 c1, .elem t2 a2 c2 =>
    match String.decEq t1 t2 with
    | isTrue ht =>
      match inferInstanceAs (DecidableEq (List (String × String))) a1 a2 with
      | isTrue ha =>
        match decEqXNodeList c1 c2 with
        | isTrue hc => isTrue (by rw [ht, ha, hc])
        | isFalse hc => isFalse (fun h => hc (by cases h; rfl))
      | isFalse ha => isFalse (fun h => ha (by cases h; rfl))
    | isFalse ht => isFalse (fun h => ht (by cases h; rfl))
  | .elem _ _ _, .text _ => isFalse (fun h => XNode.noConfusion h)
  | .text _, .elem _ _ _ => isFalse (fun h => XNode.noConfusion h)
  | .text s1, .text s2 =>
    match String.decEq s1 s2 with
    | isTrue hs => isTrue (by rw [hs])
    | isFalse hs => isFalse (fun h => hs (by cases h; rfl))

/-- Decidable equality on lists of XML nodes. -/
def decEqXNodeList : (a b : List XNode) → Decidable (a = b)
  | [], [] => isTrue rfl
  | [], _ :: _ => isFalse (fun h => List.noConfusion h)
  | _ :: _, [] => isFalse (fun h => List.noConfusion h)
  | x :: xs, y :: ys =>
    match decEqXNode x y with
    | isTrue hx =>
      match decEqXNodeList xs ys with
      | isTrue hxs => isTrue (by rw [hx, hxs])
      | isFalse hxs => isFalse (fun h => hxs (by cases h; rfl))
    | isFalse hx => isFalse (fun h => hx (by cases h; rfl))

end

instance : DecidableEq XNode := decEqXNode

/-- Namespace URI used throughout the script (lines 97, 164, 165, 185, 196). -/
def kmlNamespace : String := "http://www.opengis.net/kml/2.2"

/-- Clark-notation tag lxml uses for the target elements:
`'{http://www.opengis.net/kml/2.2}Placemark'` (lines 97, 164, 196). -/
def placemarkTag : String := "{http://www.opengis.net/kml/2.2}Placemark"

/-- Global constant, line 21: `LARGE_FILE_THRESHOLD = 10 * 1024 * 1024`. -/
def LARGE_FILE_THRESHOLD : Nat := 10 * 1024 * 1024

mutual

/-- Number of Placemark-tagged elements in a subtree (the subtree root
included).  This is what `etree.iterparse(..., events=('end',), tag=...)`
counts at lines 97-99: one `end` event fires per matching element. -/
def countPlacemarks : XNode → Nat
  | .elem t _ c => (if t = placemarkTag then 1 else 0) + countPlacemarksList c
  | .text _ => 0

/-- List version of `countPlacemarks`. -/
def countPlacemarksList : List XNode → Nat
  | [] => 0
  | x :: xs => countPlacemarks x + countPlacemarksList xs

end

mutual

/-- Placemark-tagged elements of a subtree in document (pre-)order, the
subtree root included. -/
def findallSelf : XNode → List XNode
  | .elem t a c =>
    (if t = placemarkTag then [XNode.elem t a c] else []) ++ findallSelfList c
  | .text _ => []

/-- List version of `findallSelf`. -/
def findallSelfList : List XNode → List XNode
  | [] => []
  | x :: xs => findallSelf x ++ findallSelfList xs

end

/-- Model of `root.findall('.//{http://www.opengis.net/kml/2.2}Placemark')`
(line 196): all matching strict descendants of `root`, in document order
(`.//` never matches the context node itself). -/
def findallPlacemarks : XNode → List XNode
  | .elem _ _ c => findallSelfList c
  | .text _ => []

mutual

/-- Placemark-tagged elements of a subtree in `end`-event order, i.e.
post-order: `etree.iterparse(..., events=('end',), tag=placemarkTag)`
yields a matching element when its closing tag is read, so children come
before their parents (lines 97, 164). -/
def iterparseEnds : XNode → List XNode
  | .elem t a c =>
    iterparseEndsList c ++ (if t = placemarkTag then [XNode.elem t a c] else [])
  | .text _ => []

/-- List version of `iterparseEnds`. -/
def iterparseEndsList : List XNode → List XNode
  | [] => []
  | x :: xs => iterparseEnds x ++ iterparseEndsList xs

end

/-- Model of lxml's `elem.clear()`: removes all subelements, clears all
attributes and resets the text; only the tag survives (line 169). -/
def clearNode : XNode → XNode
  | .elem t _ _ => .elem t [] []
  | .text _ => .text ""

/-- Streaming parse of a well-formed source, lines 163-170: a fresh
`kml` root with an `xmlns` attribute and a `Document` child is built, and
for each `end` event of a matching element the script runs
`document.append(elem)` followed by `elem.clear()`.  lxml's `append` MOVES
`elem` under `document` (an lxml element has a single parent), so the
subsequent `clear()` empties exactly the node that now sits in the new
document: what remains under `Document` is the cleared elements, in
`end`-event order. -/
def streamParse (root : XNode) : XNode :=
  XNode.elem "kml" [("xmlns", kmlNamespace)]
    [XNode.elem "Document" [] ((iterparseEnds root).map clearNode)]

/-- Source file on disk: a name, a byte size, and its content as a parsed
tree, or `none` when reading it fails (malformed XML or I/O error — both
paths of `parse_kml_file` raise, the broad `except` at lines 175-177
catches, and `None` is returned; `count_placemarks_in_file` has the same
catch-all at lines 101-103). -/
structure KMLFile where
  name : String
  size : Nat
  content : Option XNode
deriving Repr, DecidableEq

/-- Model of `parse_kml_file` (lines 152-177): on any failure return
`none`; otherwise pick the streaming strategy exactly when
`os.path.getsize(kml_file) > LARGE_FILE_THRESHOLD`, and a whole-document
`etree.parse(...)` (returning the file's own root) otherwise. -/
def parse_kml_file (f : KMLFile) : Option XNode :=
  match f.content with
  | none => none
  | some root =>
    if LARGE_FILE_THRESHOLD < f.size then some (streamParse root) else some root

/-- Model of `count_placemarks_in_file` (lines 87-103): streaming count of
matching `end` events; any exception yields 0. -/
def count_placemarks_in_file (f : KMLFile) : Nat :=
  match f.content with
  | none => 0
  | some root => (iterparseEnds root).length

/-- Placemark nodes a single source contributes to the merge: the result
of `parse_kml_file` queried with `findall('.//{ns}Placemark')` at
line 196; a failed parse (`root is None`, line 200) contributes nothing. -/
def extractedPlacemarks (f : KMLFile) : List XNode :=
  match parse_kml_file f with
  | some root => findallPlacemarks root
  | none => []

/-- One `as_completed` iteration of the merge loop (lines 191-203): a
successful parse appends its `findall` result to the shared `Document` and
adds `len(placemarks)` to the counter; a failed parse only logs. -/
def mergeStep (acc : List XNode × Nat) (f : KMLFile) : List XNode × Nat :=
  match parse_kml_file f with
  | some root =>
    (acc.1 ++ findallPlacemarks root, acc.2 + (findallPlacemarks root).length)
  | none => acc

/-- Fan-in of the merge (lines 185-203), processing the sources in the
order `as_completed` delivers them (`completionOrder`, some permutation of
the submitted list): returns the children of the shared `Document` element
and the `placemark_count` counter. -/
def mergeLoop (completionOrder : List KMLFile) : List XNode × Nat :=
  completionOrder.foldl mergeStep ([], 0)

/-- Wall-clock instant, as the fields `datetime.now().strftime` reads.
CPython's `datetime` guarantees `1 ≤ month ≤ 12`, `1 ≤ day ≤ 31`,
`hour ≤ 23`, `minute ≤ 59`, `second ≤ 59` and `year ≤ 9999`; theorems that
need these ranges take them as hypotheses. -/
structure DateTime where
  year : Nat
  month : Nat
  day : Nat
  hour : Nat
  minute : Nat
  second : Nat
deriving Repr, DecidableEq

/-- Decimal rendering of a field zero-padded on the left to width `w`,
as CPython's `strftime` does for `%Y` (w = 4) and `%m %d %H %M %S`
(w = 2). -/
def padNum (w n : Nat) : String :=
  String.mk (List.replicate (w - (Nat.repr n).length) '0') ++ Nat.repr n

/-- Model of `datetime.now().strftime('%Y%m%d%H%M%S')` (lines 206, 228):
the six zero-padded fields concatenated with no separators. -/
def strftime_YmdHMS (t : DateTime) : String :=
  padNum 4 t.year ++ padNum 2 t.month ++ padNum 2 t.day ++
    padNum 2 t.hour ++ padNum 2 t.minute ++ padNum 2 t.second

/-- Row of the Excel report: the three columns built at lines 229-233. -/
structure ReportRow where
  fileName : String
  placemarksCount : Nat
  fileSizeMB : ℚ
deriving Repr

/-- Model of `save_analysis_to_excel` (lines 221-239): the report file name
and its rows.  The `data` dict zips the selected file names with
`[placemark_count] * len(selected_files)` (the one aggregate total repeated
in every row) and with each file's `os.path.getsize(f) / (1024 * 1024)`. -/
def save_analysis_to_excel (selected_files : List KMLFile) (placemark_count : Nat)
    (now : DateTime) : String × List ReportRow :=
  ("Analysis_" ++ strftime_YmdHMS now ++ ".xlsx",
    selected_files.map fun f =>
      { fileName := f.name
        placemarksCount := placemark_count
        fileSizeMB := (f.size : ℚ) / (1024 * 1024) })

/-- Merged output artifact: the file name, the serialized tree, and the
`pretty_print` flag passed to `etree.tostring` (line 208). -/
structure OutputFile where
  fileName : String
  root : XNode
  prettyPrint : Bool
deriving Repr

/-- Result of one `merge_kml_files` call, as observable effects: the
shared `Document`'s children, the `placemark_count` counter, the written
output file (if any), the written report (if any), and the final console
message. -/
structure MergeOutcome where
  documentChildren : List XNode
  placemark_count : Nat
  outputFile : Option OutputFile
  report : Option (String × List ReportRow)
  message : String
deriving Repr

/-- Model of `merge_kml_files` (lines 179-219).  `selected_files` is the
submitted list, `completionOrder` the order in which `as_completed`
delivers the futures (some permutation of it), `now` and `nowA` the
wall-clock instants of the two `datetime.now()` calls (lines 206, 228).
When `len(document) > 0` the merged tree is written to
`<timestamp>_Merged.kml` and `save_analysis_to_excel(selected_files,
placemark_count)` runs; otherwise nothing is written and the script prints
`"No valid KML files were merged."` and returns normally (lines 216-219). -/
def merge_kml_files (selected_files completionOrder : List KMLFile)
    (now nowA : DateTime) : MergeOutcome :=
  let r := mergeLoop completionOrder
  if 0 < r.1.length then
    { documentChildren := r.1
      placemark_count := r.2
      outputFile := some
        { fileName := strftime_YmdHMS now ++ "_Merged.kml"
          root := XNode.elem "kml" [("xmlns", kmlNamespace)]
            [XNode.elem "Document" [] r.1]
          prettyPrint := true }
      report := some (save_analysis_to_excel selected_files r.2 nowA)
      message := "Merged KML file saved as: " ++ (strftime_YmdHMS now ++ "_Merged.kml") }
  else
    { documentChildren := r.1
      placemark_count := r.2
      outputFile := none
      report := none
      message := "No valid KML files were merged." }

/-- Whitespace as Python's `str.strip()` sees it (ASCII fragment). -/
def pyIsSpace (c : Char) : Bool := c = ' ' ∨ c = '\t' ∨ c = '\n' ∨ c = '\r'

/-- Model of Python's `str.strip()`: drop leading and trailing whitespace. -/
def pyStrip (s : String) : String :=
  String.mk (((s.data.dropWhile pyIsSpace).reverse.dropWhile pyIsSpace).reverse)

/-- Model of Python's `str.lower()` on one character (ASCII fragment). -/
def pyLowerChar (c : Char) : Char :=
  if 'A' ≤ c ∧ c ≤ 'Z' then Char.ofNat (c.toNat + 32) else c

/-- Model of Python's `str.lower()`. -/
def pyLower (s : String) : String := String.mk (s.data.map pyLowerChar)

/-- Auxiliary splitter: Python's `str.split(sep)` keeps empty pieces. -/
def pySplitAux (sep : Char) : List Char → List Char → List (List Char)
  | [], acc => [acc.reverse]
  | c :: rest, acc =>
    if c = sep then acc.reverse :: pySplitAux sep rest []
    else pySplitAux sep rest (c :: acc)

/-- Model of Python's `str.split(sep)` for a one-character separator. -/
def pySplit (sep : Char) (s : String) : List String :=
  (pySplitAux sep s.data []).map String.mk

/-- Decimal digit test, Python's `str.isdigit()` on one character (ASCII
fragment). -/
def pyIsDigitChar (c : Char) : Bool := '0' ≤ c ∧ c ≤ '9'

/-- Model of Python's `str.isdigit()`: nonempty and all digits. -/
def pyIsDigit (s : String) : Bool := !s.data.isEmpty && s.data.all pyIsDigitChar

/-- Model of Python's `int(...)` on an all-digit string. -/
def pyToNat (s : String) : Nat :=
  s.data.foldl (fun acc c => 10 * acc + (c.toNat - '0'.toNat)) 0

/-- One piece of the comma-separated selection, lines 129-132: strip it,
and append `kml_files[int(index) - 1][0]` exactly when `index.isdigit()`
holds and `1 <= int(index) <= len(kml_files)`. -/
def indexSelect (kml_files : List (String × Nat × ℚ)) (raw : String) : Option String :=
  let part := pyStrip raw
  if pyIsDigit part then
    let n := pyToNat part
    if 1 ≤ n ∧ n ≤ kml_files.length then (kml_files.get? (n - 1)).map Prod.fst
    else none
  else none

/-- Value of the `selected_files` variable after lines 123-132: an empty
input selects every listed file, otherwise each comma-separated piece is
resolved through `indexSelect`. -/
def selectedFilesOf (kml_files : List (String × Nat × ℚ)) (s : String) : List String :=
  if s = "" then kml_files.map Prod.fst
  else (pySplit ',' s).filterMap (indexSelect kml_files)

/-- Outcome of one pass of the `get_user_selection` loop body. -/
inductive SelectionStep : Type where
  | exitScript : SelectionStep
  | retry : SelectionStep
  | selected (files : List String) : SelectionStep
deriving Repr, DecidableEq

/-- Model of one iteration of `get_user_selection`'s `while True` body
(lines 111-150) on one console input.  The input is stripped and
lowercased (line 118); `'e'` exits (lines 119-122); an empty input selects
every listed file (lines 123-125); otherwise each comma piece is resolved
by `indexSelect` and an empty result raises `ValueError`, caught at
line 135 into a retry (`continue`); finally fewer than two selected files
also retries (lines 141-147), and only a list of at least two files is
returned (lines 148-150). -/
def selectionStep (kml_files : List (String × Nat × ℚ)) (rawInput : String) :
    SelectionStep :=
  if pyLower (pyStrip rawInput) = "e" then SelectionStep.exitScript
  else if pyLower (pyStrip rawInput) ≠ "" ∧
      selectedFilesOf kml_files (pyLower (pyStrip rawInput)) = [] then SelectionStep.retry
  else if (selectedFilesOf kml_files (pyLower (pyStrip rawInput))).length < 2 then
    SelectionStep.retry
  else SelectionStep.selected (selectedFilesOf kml_files (pyLower (pyStrip rawInput)))

/-- Model of `list_kml_files` (lines 67-85) over a fixed directory:
one `(name, placemark count, size in MB)` tuple per file. -/
def list_kml_files (files : List KMLFile) : List (String × Nat × ℚ) :=
  files.map fun f => (f.name, count_placemarks_in_file f, (f.size : ℚ) / (1024 * 1024))

/-- Model of the whole `get_user_selection` loop (lines 105-150) fed a
stream of console inputs, with the directory (and hence the re-listing at
line 147) unchanged between prompts: `none` means every input retried and
the loop is still prompting; `some none` means the script exited on `'e'`;
`some (some sel)` means the call returned the selection `sel`. -/
def get_user_selection (kml_files : List (String × Nat × ℚ)) :
    List String → Option (Option (List String))
  | [] => none
  | inp :: rest =>
    match selectionStep kml_files inp with
    | SelectionStep.retry => get_user_selection kml_files rest
    | SelectionStep.exitScript => some none
    | SelectionStep.selected sel => some (some sel)

/-- Serialization attempt, lines 207-208: `with open(output_file, 'wb') as
f: f.write(etree.tostring(merged_root, pretty_print=True))`.  `data` is
the byte string to write; `failAfter = some k` models an I/O error (disk
full, permissions) raised after `k` bytes reached the disk, `none` a
completed write. -/
structure WriteAttempt where
  data : List Nat
  failAfter : Option Nat
deriving Repr, DecidableEq

/-- Bytes visible at the final output path after the attempt.
`open(output_file, 'wb')` creates (or truncates) the file at the final
output path immediately — there is no temporary file and no rename — so
after a failure the bytes written so far remain there. -/
def fileAtOutputPath (w : WriteAttempt) : Option (List Nat) :=
  match w.failAfter with
  | none => some w.data
  | some k => some (w.data.take k)

/-- Tag test for the root element: `findall('.//...')` never matches the
context node itself, so a tree whose root is itself a Placemark (never the
case for well-formed KML, whose root element is `{ns}kml`) would count
differently. -/
def rootIsPlacemark : XNode → Bool
  | .elem t _ _ => t = placemarkTag
  | .text _ => false

/-- Result of lxml's `clear()` on a streamed Placemark: only the tag is
left. -/
def emptyPlacemark : XNode := XNode.elem placemarkTag [] []

/-- Sample Placemark with a child element and text, as a real UFED export
carries geometry and metadata below each Placemark. -/
def samplePlacemark : XNode :=
  XNode.elem placemarkTag []
    [XNode.elem "{http://www.opengis.net/kml/2.2}name" [] [XNode.text "P1"]]

/-- Sample well-formed KML tree with one Placemark. -/
def sampleRoot : XNode :=
  XNode.elem "{http://www.opengis.net/kml/2.2}kml" []
    [XNode.elem "{http://www.opengis.net/kml/2.2}Document" [] [samplePlacemark]]

/-- Sample well-formed KML tree with two Placemarks. -/
def sampleRootB : XNode :=
  XNode.elem "{http://www.opengis.net/kml/2.2}kml" []
    [XNode.elem "{http://www.opengis.net/kml/2.2}Document" []
      [XNode.elem placemarkTag [] [XNode.text "B1"],
       XNode.elem placemarkTag [] [XNode.text "B2"]]]

/-- Small source file (2 KB, below the threshold). -/
def sampleSmall : KMLFile := { name := "A.kml", size := 2048, content := some sampleRoot }

/-- Large source file (15 MB, above the threshold, streaming path). -/
def sampleLarge : KMLFile :=
  { name := "B.kml", size := 15 * 1024 * 1024, content := some sampleRootB }

/-- Large source file holding the same tree as `sampleSmall`. -/
def sampleLargeA : KMLFile :=
  { name := "bigA.kml", size := 20 * 1024 * 1024, content := some sampleRoot }

/-- Malformed source file: reading it raises, so its content is `none`. -/
def sampleBad : KMLFile := { name := "C.kml", size := 4096, content := none }

/-- Valid XML source with no Placemark at all. -/
def sampleEmpty : KMLFile :=
  { name := "D.kml", size := 100,
    content := some (XNode.elem "{http://www.opengis.net/kml/2.2}kml" []
      [XNode.elem "{http://www.opengis.net/kml/2.2}Document" [] []]) }

/-- Sample wall-clock instant. -/
def sampleNow : DateTime :=
  { year := 2026, month := 10, day := 12, hour := 9, minute := 30, second := 5 }

/-- Sample directory listing as `list_kml_files` would build it. -/
def demoListing : List (String × Nat × ℚ) :=
  [("A.kml", 1, 1), ("B.kml", 2, 15)]

/-! ## Helper lemmas -/

mutual

theorem length_iterparseEnds : ∀ x : XNode, (iterparseEnds x).length = countPlacemarks x
  | .elem t a c => by
    simp only [iterparseEnds, countPlacemarks, List.length_append,
      length_iterparseEndsList c]
    split <;> simp [Nat.add_comm]
  | .text _ => rfl

theorem length_iterparseEndsList :
    ∀ xs : List XNode, (iterparseEndsList xs).length = countPlacemarksList xs
  | [] => rfl
  | x :: xs => by
    simp only [iterparseEndsList, countPlacemarksList, List.length_append,
      length_iterparseEnds x, length_iterparseEndsList xs]

end

mutual

theorem length_findallSelf : ∀ x : XNode, (findallSelf x).length = countPlacemarks x
  | .elem t a c => by
    simp only [findallSelf, countPlacemarks, List.length_append,
      length_findallSelfList c]
    split <;> simp
  | .text _ => rfl

theorem length_findallSelfList :
    ∀ xs : List XNode, (findallSelfList xs).length = countPlacemarksList xs
  | [] => rfl
  | x :: xs => by
    simp only [findallSelfList, countPlacemarksList, List.length_append,
      length_findallSelf x, length_findallSelfList xs]

end

mutual

theorem mem_iterparseEnds_tag :
    ∀ (x n : XNode), n ∈ iterparseEnds x → ∃ a c, n = XNode.elem placemarkTag a c
  | .elem t a c, n => by
    simp only [iterparseEnds]
    intro hn
    rcases List.mem_append.1 hn with h | h
    · exact mem_iterparseEndsList_tag c n h
    · split at h
      · next ht => rcases List.mem_singleton.1 h with rfl; exact ⟨a, c, by rw [ht]⟩
      · exact absurd h (List.not_mem_nil n)
  | .text _, n => fun hn => absurd hn (List.not_mem_nil n)

theorem mem_iterparseEndsList_tag :
    ∀ (xs : List XNode) (n : XNode), n ∈ iterparseEndsList xs →
      ∃ a c, n = XNode.elem placemarkTag a c
  | [], n => fun hn => absurd hn (List.not_mem_nil n)
  | x :: xs, n => by
    simp only [iterparseEndsList]
    intro hn
    rcases List.mem_append.1 hn with h | h
    · exact mem_iterparseEnds_tag x n h
    · exact mem_iterparseEndsList_tag xs n h

end

theorem iterparseEnds_map_clear (root : XNode) :
    (iterparseEnds root).map clearNode = List.replicate (countPlacemarks root) emptyPlacemark := by
  rw [List.eq_replicate_iff]
  constructor
  · rw [List.length_map, length_iterparseEnds]
  · intro b hb
    rcases List.mem_map.1 hb with ⟨n, hn, rfl⟩
    rcases mem_iterparseEnds_tag root n hn with ⟨a, c, rfl⟩
    rfl

theorem findallSelfList_replicate (n : Nat) :
    findallSelfList (List.replicate n emptyPlacemark) = List.replicate n emptyPlacemark := by
  induction n with
  | zero => rfl
  | succ n ih =>
    rw [List.replicate_succ]
    show findallSelf emptyPlacemark ++ findallSelfList (List.replicate n emptyPlacemark) =
      emptyPlacemark :: List.replicate n emptyPlacemark
    rw [ih]
    simp [findallSelf, findallSelfList, emptyPlacemark]

theorem findallPlacemarks_streamParse (root : XNode) :
    findallPlacemarks (streamParse root) =
      List.replicate (countPlacemarks root) emptyPlacemark := by
  show findallSelfList [XNode.elem "Document" [] ((iterparseEnds root).map clearNode)] =
    List.replicate (countPlacemarks root) emptyPlacemark
  rw [iterparseEnds_map_clear]
  simp only [findallSelfList, findallSelf, List.append_nil]
  rw [if_neg (show ¬("Document" : String) = placemarkTag by decide)]
  rw [findallSelfList_replicate]
  simp

theorem length_findallPlacemarks (root : XNode) (h : rootIsPlacemark root = false) :
    (findallPlacemarks root).length = countPlacemarks root := by
  cases root with
  | elem t a c =>
    have ht : ¬ t = placemarkTag := by
      simpa [rootIsPlacemark] using h
    simp only [findallPlacemarks, countPlacemarks, length_findallSelfList, if_neg ht]
    omega
  | text s => rfl

theorem count_placemarks_in_file_eq (f : KMLFile) (root : XNode)
    (hc : f.content = some root) :
    count_placemarks_in_file f = countPlacemarks root := by
  simp [count_placemarks_in_file, hc, length_iterparseEnds]

theorem parse_kml_file_some (f : KMLFile) (root : XNode) (hc : f.content = some root) :
    parse_kml_file f =
      some (if LARGE_FILE_THRESHOLD < f.size then streamParse root else root) := by
  unfold parse_kml_file
  rw [hc]
  show (if LARGE_FILE_THRESHOLD < f.size then some (streamParse root) else some root) =
    some (if LARGE_FILE_THRESHOLD < f.size then streamParse root else root)
  split <;> rfl

theorem parse_kml_file_none (f : KMLFile) (hc : f.content = none) :
    parse_kml_file f = none := by
  unfold parse_kml_file
  rw [hc]

theorem extractedPlacemarks_some (f : KMLFile) (root : XNode)
    (h : parse_kml_file f = some root) :
    extractedPlacemarks f = findallPlacemarks root := by
  unfold extractedPlacemarks
  rw [h]

theorem extractedPlacemarks_none (f : KMLFile) (h : parse_kml_file f = none) :
    extractedPlacemarks f = [] := by
  unfold extractedPlacemarks
  rw [h]

theorem length_extractedPlacemarks (f : KMLFile) (root : XNode)
    (hc : f.content = some root) (hroot : rootIsPlacemark root = false) :
    (extractedPlacemarks f).length = count_placemarks_in_file f := by
  rw [count_placemarks_in_file_eq f root hc,
    extractedPlacemarks_some f _ (parse_kml_file_some f root hc)]
  split
  · rw [findallPlacemarks_streamParse, List.length_replicate]
  · exact length_findallPlacemarks root hroot

theorem mergeStep_eq (acc : List XNode × Nat) (f : KMLFile) :
    mergeStep acc f = (acc.1 ++ extractedPlacemarks f, acc.2 + (extractedPlacemarks f).length) := by
  cases h : parse_kml_file f with
  | none =>
    rw [extractedPlacemarks_none f h]
    unfold mergeStep
    rw [h]
    simp
  | some root =>
    rw [extractedPlacemarks_some f root h]
    unfold mergeStep
    rw [h]

theorem mergeLoop_foldl (order : List KMLFile) :
    ∀ acc : List XNode × Nat,
      order.foldl mergeStep acc =
        (acc.1 ++ (order.map extractedPlacemarks).flatten,
         acc.2 + ((order.map extractedPlacemarks).map List.length).sum) := by
  induction order with
  | nil => intro acc; simp
  | cons f rest ih =>
    intro acc
    rw [List.foldl_cons, mergeStep_eq, ih]
    simp [List.append_assoc, Nat.add_assoc]

theorem mergeLoop_eq (order : List KMLFile) :
    mergeLoop order =
      ((order.map extractedPlacemarks).flatten,
       ((order.map extractedPlacemarks).map List.length).sum) := by
  rw [mergeLoop, mergeLoop_foldl]
  simp

theorem mergeLoop_count_eq_length (order : List KMLFile) :
    (mergeLoop order).2 = (mergeLoop order).1.length := by
  rw [mergeLoop_eq]
  simp [List.length_flatten]

theorem selectionStep_selected_length (kml_files : List (String × Nat × ℚ))
    (inp : String) (sel : List String)
    (h : selectionStep kml_files inp = SelectionStep.selected sel) : 2 ≤ sel.length := by
  unfold selectionStep at h
  split_ifs at h with h1 h2 h3
  injection h with h4
  subst h4
  omega

theorem selectionStep_exitScript_iff (kml_files : List (String × Nat × ℚ))
    (inp : String) :
    selectionStep kml_files inp = SelectionStep.exitScript ↔
      pyLower (pyStrip inp) = "e" := by
  constructor
  · intro h
    unfold selectionStep at h
    split_ifs at h with h1 h2 h3
    exact h1
  · intro h
    unfold selectionStep
    rw [if_pos h]

theorem digitChar_isDigit (n : Nat) (h : n < 10) : (Nat.digitChar n).isDigit = true := by
  interval_cases n <;> decide

theorem toDigitsCore_all_digits :
    ∀ (fuel n : Nat) (acc : List Char),
      (∀ c ∈ acc, c.isDigit = true) →
      ∀ c ∈ Nat.toDigitsCore 10 fuel n acc, c.isDigit = true := by
  intro fuel
  induction fuel with
  | zero =>
    intro n acc hacc c hc
    simp only [Nat.toDigitsCore] at hc
    exact hacc c hc
  | succ fuel ih =>
    intro n acc hacc c hc
    have hd : (Nat.digitChar (n % 10)).isDigit = true :=
      digitChar_isDigit _ (Nat.mod_lt _ (by norm_num))
    simp only [Nat.toDigitsCore] at hc
    split at hc
    · rcases List.mem_cons.1 hc with rfl | hmem
      · exact hd
      · exact hacc c hmem
    · refine ih (n / 10) _ ?_ c hc
      intro c' hc'
      rcases List.mem_cons.1 hc' with rfl | hmem
      · exact hd
      · exact hacc c' hmem

theorem repr_all_digits (n : Nat) : ∀ c ∈ (Nat.repr n).data, c.isDigit = true := by
  intro c hc
  have hrepr : (Nat.repr n).data = Nat.toDigitsCore 10 (n + 1) n [] := rfl
  rw [hrepr] at hc
  exact toDigitsCore_all_digits (n + 1) n [] (by simp) c hc

theorem padNum_length (w n : Nat) (hw : 0 < w) (hn : n < 10 ^ w) :
    (padNum w n).length = w := by
  have hlen : (Nat.repr n).length ≤ w := Nat.repr_length n w hw hn
  rw [padNum, String.length_append, String.length_mk, List.length_replicate]
  omega

theorem padNum_digits (w n : Nat) : ∀ c ∈ (padNum w n).data, c.isDigit = true := by
  intro c hc
  rw [padNum, String.data_append] at hc
  rcases List.mem_append.1 hc with h | h
  · have hc0 : c = '0' := List.eq_of_mem_replicate (by simpa using h)
    rw [hc0]
    decide
  · exact repr_all_digits n c h

theorem strftime_YmdHMS_length (t : DateTime) (hy : t.year < 10000)
    (hm : t.month < 100) (hd : t.day < 100) (hh : t.hour < 100)
    (hmi : t.minute < 100) (hs : t.second < 100) :
    (strftime_YmdHMS t).length = 14 := by
  have p4 : (10 : Nat) ^ 4 = 10000 := by norm_num
  have p2 : (10 : Nat) ^ 2 = 100 := by norm_num
  rw [strftime_YmdHMS]
  rw [String.length_append, String.length_append, String.length_append,
    String.length_append, String.length_append]
  rw [padNum_length 4 t.year (by norm_num) (by rw [p4]; exact hy),
    padNum_length 2 t.month (by norm_num) (by rw [p2]; exact hm),
    padNum_length 2 t.day (by norm_num) (by rw [p2]; exact hd),
    padNum_length 2 t.hour (by norm_num) (by rw [p2]; exact hh),
    padNum_length 2 t.minute (by norm_num) (by rw [p2]; exact hmi),
    padNum_length 2 t.second (by norm_num) (by rw [p2]; exact hs)]

theorem strftime_YmdHMS_digits (t : DateTime) :
    ∀ c ∈ (strftime_YmdHMS t).data, c.isDigit = true := by
  intro c hc
  rw [strftime_YmdHMS] at hc
  simp only [String.data_append, List.mem_append] at hc
  rcases hc with ((((h | h) | h) | h) | h) | h <;> exact padNum_digits _ _ c h

/-! ## Claims -/

/-- C1: the claim that the streaming path and the whole-document path
extract identical node sets (same subtrees) is FALSE of the code, and the
code contradicts its own purpose (merging placemark data): on the same
tree, the whole-document path extracts the full Placemark subtree while
the streaming path — `document.append(elem)` followed by `elem.clear()`,
where lxml `append` moves the very node that `clear()` then wipes —
extracts a Placemark stripped of all children, attributes and text.  The
node count is preserved but the subtrees are not. -/
theorem streaming_path_clears_placemark_subtrees :
    parse_kml_file sampleLargeA = some (streamParse sampleRoot)
    ∧ parse_kml_file sampleSmall = some sampleRoot
    ∧ extractedPlacemarks sampleSmall = [samplePlacemark]
    ∧ extractedPlacemarks sampleLargeA = [emptyPlacemark]
    ∧ (extractedPlacemarks sampleLargeA).length = (extractedPlacemarks sampleSmall).length
    ∧ extractedPlacemarks sampleLargeA ≠ extractedPlacemarks sampleSmall := by
  refine ⟨?_, ?_, ?_, ?_, ?_, ?_⟩ <;> decide

/-- C2: for well-formed sources (parse succeeds; the root element is not
itself a Placemark, as in any real KML document), the merged `Document`
holds exactly the concatenation of every source's extracted Placemark
nodes in completion order, and the reported `placemark_count` equals the
sum of the per-source placemark counts; every such source parses
successfully (a zero-placemark source included, contributing zero). -/
theorem merged_count_is_sum_of_source_counts
    (selected completionOrder : List KMLFile)
    (hperm : completionOrder.Perm selected)
    (hN : 2 ≤ selected.length)
    (hwf : ∀ f ∈ selected, ∃ root, f.content = some root ∧ rootIsPlacemark root = false) :
    (mergeLoop completionOrder).1 = (completionOrder.map extractedPlacemarks).flatten
    ∧ (mergeLoop completionOrder).2 = (selected.map count_placemarks_in_file).sum
    ∧ ∀ f ∈ selected, parse_kml_file f ≠ none := by
  refine ⟨by rw [mergeLoop_eq], ?_, ?_⟩
  · rw [mergeLoop_eq]
    calc ((completionOrder.map extractedPlacemarks).map List.length).sum
        = (completionOrder.map (List.length ∘ extractedPlacemarks)).sum := by
          rw [List.map_map]
      _ = (selected.map (List.length ∘ extractedPlacemarks)).sum :=
          (hperm.map (List.length ∘ extractedPlacemarks)).sum_eq
      _ = (selected.map count_placemarks_in_file).sum := by
          refine congrArg List.sum (List.map_congr_left ?_)
          intro f hf
          obtain ⟨root, hc, hroot⟩ := hwf f hf
          exact length_extractedPlacemarks f root hc hroot
  · intro f hf
    obtain ⟨root, hc, _⟩ := hwf f hf
    rw [parse_kml_file_some f root hc]
    simp

/-- C2 witness: two well-formed sources (1 and 2 placemarks, one through
each parse strategy), delivered in the reverse of submission order, merge
to 3 placemarks. -/
theorem merged_count_is_sum_of_source_counts_witness :
    ((mergeLoop [sampleLarge, sampleSmall]).1 =
        ([sampleLarge, sampleSmall].map extractedPlacemarks).flatten
      ∧ (mergeLoop [sampleLarge, sampleSmall]).2 =
        ([sampleSmall, sampleLarge].map count_placemarks_in_file).sum
      ∧ ∀ f ∈ [sampleSmall, sampleLarge], parse_kml_file f ≠ none)
    ∧ (mergeLoop [sampleLarge, sampleSmall]).2 = 3 := by
  constructor
  · refine merged_count_is_sum_of_source_counts [sampleSmall, sampleLarge]
      [sampleLarge, sampleSmall] (List.Perm.swap sampleSmall sampleLarge [])
      (by decide) ?_
    intro f hf
    rcases List.mem_cons.1 hf with rfl | hf2
    · exact ⟨sampleRoot, rfl, by decide⟩
    · rcases List.mem_singleton.1 hf2 with rfl
      exact ⟨sampleRootB, rfl, by decide⟩
  · decide

/-- C3: a source that fails to parse is absorbed (it contributes the empty
node list) and never disturbs its siblings: any source that reads
successfully still parses to a non-`None` result, its extracted placemarks
appear contiguously in the merged `Document`, and the aggregate count is
still the sum over all sources of what each contributed. -/
theorem partial_failure_isolation
    (completionOrder : List KMLFile) (f : KMLFile)
    (hf : f ∈ completionOrder) (hok : f.content ≠ none) :
    parse_kml_file f ≠ none
    ∧ (∃ pre post, (mergeLoop completionOrder).1 = pre ++ extractedPlacemarks f ++ post)
    ∧ (mergeLoop completionOrder).2 =
        ((completionOrder.map extractedPlacemarks).map List.length).sum
    ∧ ∀ g ∈ completionOrder, parse_kml_file g = none → extractedPlacemarks g = [] := by
  refine ⟨?_, ?_, ?_, ?_⟩
  · cases hcon : f.content with
    | none => exact absurd hcon hok
    | some root =>
      rw [parse_kml_file_some f root hcon]
      simp
  · obtain ⟨l1, l2, hsplit⟩ := List.append_of_mem hf
    refine ⟨(l1.map extractedPlacemarks).flatten, (l2.map extractedPlacemarks).flatten, ?_⟩
    rw [mergeLoop_eq, hsplit]
    simp [List.map_append, List.flatten_append, List.append_assoc]
  · rw [mergeLoop_eq]
  · intro g _ hpg
    exact extractedPlacemarks_none g hpg

/-- C3 witness: merging a malformed source together with a well-formed one
still yields the well-formed source's single placemark with count 1. -/
theorem partial_failure_isolation_witness :
    (parse_kml_file sampleSmall ≠ none
      ∧ (∃ pre post,
          (mergeLoop [sampleBad, sampleSmall]).1 =
            pre ++ extractedPlacemarks sampleSmall ++ post)
      ∧ (mergeLoop [sampleBad, sampleSmall]).2 =
          (([sampleBad, sampleSmall].map extractedPlacemarks).map List.length).sum
      ∧ ∀ g ∈ [sampleBad, sampleSmall], parse_kml_file g = none →
          extractedPlacemarks g = [])
    ∧ (mergeLoop [sampleBad, sampleSmall]).1 = [samplePlacemark]
    ∧ (mergeLoop [sampleBad, sampleSmall]).2 = 1 := by
  refine ⟨partial_failure_isolation [sampleBad, sampleSmall] sampleSmall
    (by decide) (by decide), by decide, by decide⟩

/-- C4: for a readable source, `parse_kml_file` picks the streaming
strategy exactly when the byte size strictly exceeds 10 * 1024 * 1024, the
in-memory whole-document strategy otherwise, and the threshold is the
constant `LARGE_FILE_THRESHOLD` = 10 MiB. -/
theorem parse_strategy_selected_by_threshold
    (f : KMLFile) (root : XNode) (hc : f.content = some root) :
    parse_kml_file f =
      some (if 10 * 1024 * 1024 < f.size then streamParse root else root)
    ∧ LARGE_FILE_THRESHOLD = 10 * 1024 * 1024 :=
  ⟨parse_kml_file_some f root hc, rfl⟩

/-- C4 witness: a 20 MiB file streams, a 2 KB file does not. -/
theorem parse_strategy_selected_by_threshold_witness :
    (parse_kml_file sampleLargeA =
        some (if 10 * 1024 * 1024 < sampleLargeA.size then streamParse sampleRoot
          else sampleRoot)
      ∧ LARGE_FILE_THRESHOLD = 10 * 1024 * 1024)
    ∧ parse_kml_file sampleLargeA = some (streamParse sampleRoot)
    ∧ parse_kml_file sampleSmall = some sampleRoot :=
  ⟨parse_strategy_selected_by_threshold sampleLargeA sampleRoot rfl, by decide, by decide⟩

/-- C5: when the merge ends with zero placemark nodes in total, the
function writes no output file and no report, prints the distinct
`"No valid KML files were merged."` message, and returns normally (it is a
total function of its inputs). -/
theorem nothing_merged_no_output
    (selected completionOrder : List KMLFile) (now nowA : DateTime)
    (h : (mergeLoop completionOrder).2 = 0) :
    (merge_kml_files selected completionOrder now nowA).outputFile = none
    ∧ (merge_kml_files selected completionOrder now nowA).report = none
    ∧ (merge_kml_files selected completionOrder now nowA).message =
        "No valid KML files were merged." := by
  have hlen : ¬ 0 < (mergeLoop completionOrder).1.length := by
    rw [← mergeLoop_count_eq_length, h]
    omega
  refine ⟨?_, ?_, ?_⟩ <;> simp [merge_kml_files, if_neg hlen]

/-- C5 witness: every selected source fails to parse, so nothing is
written and the distinct message is reported. -/
theorem nothing_merged_no_output_witness :
    (mergeLoop [sampleBad, sampleBad]).2 = 0
    ∧ ((merge_kml_files [sampleBad, sampleBad] [sampleBad, sampleBad]
          sampleNow sampleNow).outputFile = none
      ∧ (merge_kml_files [sampleBad, sampleBad] [sampleBad, sampleBad]
          sampleNow sampleNow).report = none
      ∧ (merge_kml_files [sampleBad, sampleBad] [sampleBad, sampleBad]
          sampleNow sampleNow).message = "No valid KML files were merged.") :=
  ⟨by decide, nothing_merged_no_output [sampleBad, sampleBad] [sampleBad, sampleBad]
    sampleNow sampleNow (by decide)⟩

/-- C6: when at least one placemark was merged, the output is written to
`<timestamp>_Merged.kml` where the timestamp is `strftime('%Y%m%d%H%M%S')`
of the current wall clock — 14 characters, all decimal digits, no
separators, given the field ranges `datetime` guarantees — and the
serialized tree is a single `kml` root carrying the
`xmlns="http://www.opengis.net/kml/2.2"` attribute with exactly one
`Document` child holding all merged Placemark subtrees, with
`pretty_print=True`. -/
theorem output_file_timestamped_and_structured
    (selected completionOrder : List KMLFile) (now nowA : DateTime)
    (h : 0 < (mergeLoop completionOrder).2)
    (hy : now.year < 10000) (hm : now.month < 100) (hd : now.day < 100)
    (hh : now.hour < 100) (hmi : now.minute < 100) (hs : now.second < 100) :
    (merge_kml_files selected completionOrder now nowA).outputFile =
      some { fileName := strftime_YmdHMS now ++ "_Merged.kml"
             root := XNode.elem "kml" [("xmlns", kmlNamespace)]
               [XNode.elem "Document" [] (mergeLoop completionOrder).1]
             prettyPrint := true }
    ∧ (strftime_YmdHMS now).length = 14
    ∧ (∀ c ∈ (strftime_YmdHMS now).data, c.isDigit = true) := by
  have hlen : 0 < (mergeLoop completionOrder).1.length := by
    rw [← mergeLoop_count_eq_length]
    exact h
  refine ⟨by simp [merge_kml_files, if_pos hlen], ?_, strftime_YmdHMS_digits now⟩
  exact strftime_YmdHMS_length now hy hm hd hh hmi hs

/-- C6 witness: a concrete merge writes `20261012093005_Merged.kml`. -/
theorem output_file_timestamped_and_structured_witness :
    ((merge_kml_files [sampleSmall, sampleLarge] [sampleSmall, sampleLarge]
        sampleNow sampleNow).outputFile =
      some { fileName := strftime_YmdHMS sampleNow ++ "_Merged.kml"
             root := XNode.elem "kml" [("xmlns", kmlNamespace)]
               [XNode.elem "Document" []
                 (mergeLoop [sampleSmall, sampleLarge]).1]
             prettyPrint := true }
      ∧ (strftime_YmdHMS sampleNow).length = 14
      ∧ (∀ c ∈ (strftime_YmdHMS sampleNow).data, c.isDigit = true))
    ∧ strftime_YmdHMS sampleNow ++ "_Merged.kml" = "20261012093005_Merged.kml" := by
  constructor
  · exact output_file_timestamped_and_structured [sampleSmall, sampleLarge]
      [sampleSmall, sampleLarge] sampleNow sampleNow (by decide) (by decide)
      (by decide) (by decide) (by decide) (by decide) (by decide)
  · decide

/-- C7: the selection loop never returns fewer than two files — every
returned selection has length at least 2, the process exits only when some
input is (after strip and lowercase) exactly `'e'`, and as long as every
input keeps failing the checks the loop only re-prompts (it neither
returns nor exits). -/
theorem selection_returns_at_least_two_or_exits
    (kml_files : List (String × Nat × ℚ)) (inputs : List String) :
    (∀ sel, get_user_selection kml_files inputs = some (some sel) → 2 ≤ sel.length)
    ∧ (get_user_selection kml_files inputs = some none →
        ∃ inp ∈ inputs, pyLower (pyStrip inp) = "e")
    ∧ ((∀ inp ∈ inputs, selectionStep kml_files inp = SelectionStep.retry) →
        get_user_selection kml_files inputs = none) := by
  induction inputs with
  | nil =>
    refine ⟨?_, ?_, fun _ => rfl⟩
    · intro sel h
      exact absurd h (by simp [get_user_selection])
    · intro h
      exact absurd h (by simp [get_user_selection])
  | cons inp rest ih =>
    refine ⟨?_, ?_, ?_⟩
    · intro sel h
      unfold get_user_selection at h
      cases hstep : selectionStep kml_files inp with
      | exitScript =>
        rw [hstep] at h
        exact absurd h (by simp)
      | retry =>
        rw [hstep] at h
        exact ih.1 sel h
      | selected s =>
        rw [hstep] at h
        obtain rfl : s = sel := by simpa using h
        exact selectionStep_selected_length kml_files inp s hstep
    · intro h
      unfold get_user_selection at h
      cases hstep : selectionStep kml_files inp with
      | exitScript =>
        exact ⟨inp, List.mem_cons_self inp rest,
          (selectionStep_exitScript_iff kml_files inp).1 hstep⟩
      | retry =>
        rw [hstep] at h
        obtain ⟨inp', hmem, he⟩ := (ih.2.1) h
        exact ⟨inp', List.mem_cons_of_mem _ hmem, he⟩
      | selected s =>
        rw [hstep] at h
        exact absurd h (by simp)
    · intro hall
      unfold get_user_selection
      rw [hall inp (List.mem_cons_self inp rest)]
      exact ih.2.2 fun i hi => hall i (List.mem_cons_of_mem _ hi)

/-- C7 witness: on a two-file listing the input `"1,2"` returns both
files, so the returned selection has length 2. -/
theorem selection_returns_at_least_two_or_exits_witness :
    2 ≤ (["A.kml", "B.kml"] : List String).length
    ∧ get_user_selection demoListing ["1,2"] = some (some ["A.kml", "B.kml"])
    ∧ get_user_selection demoListing ["1"] = none :=
  ⟨(selection_returns_at_least_two_or_exits demoListing ["1,2"]).1
      ["A.kml", "B.kml"] (by decide),
    by decide, by decide⟩

/-- C8: whenever the output is written, the reporting collaborator
receives the full originally-requested source list together with the
aggregate count, and produces one row per requested source whose count
column is the single aggregate total (identical in every row) and whose
size column is that source's byte size divided by 1024 * 1024. -/
theorem report_one_row_per_requested_source
    (selected completionOrder : List KMLFile) (now nowA : DateTime)
    (h : 0 < (mergeLoop completionOrder).2) :
    (merge_kml_files selected completionOrder now nowA).report =
      some (save_analysis_to_excel selected (mergeLoop completionOrder).2 nowA)
    ∧ ((save_analysis_to_excel selected (mergeLoop completionOrder).2 nowA).2).length =
        selected.length
    ∧ ∀ i : Nat,
        ((save_analysis_to_excel selected (mergeLoop completionOrder).2 nowA).2).get? i =
          (selected.get? i).map fun f =>
            { fileName := f.name
              placemarksCount := (mergeLoop completionOrder).2
              fileSizeMB := (f.size : ℚ) / (1024 * 1024) } := by
  have hlen : 0 < (mergeLoop completionOrder).1.length := by
    rw [← mergeLoop_count_eq_length]
    exact h
  refine ⟨by simp [merge_kml_files, if_pos hlen], ?_, ?_⟩
  · simp [save_analysis_to_excel]
  · intro i
    simp [save_analysis_to_excel, List.get?_map]

/-- C8 witness: a merge where one requested source failed to parse still
reports a row for each of the two requested sources. -/
theorem report_one_row_per_requested_source_witness :
    ((merge_kml_files [sampleSmall, sampleBad] [sampleSmall, sampleBad]
        sampleNow sampleNow).report =
      some (save_analysis_to_excel [sampleSmall, sampleBad]
        (mergeLoop [sampleSmall, sampleBad]).2 sampleNow)
      ∧ ((save_analysis_to_excel [sampleSmall, sampleBad]
          (mergeLoop [sampleSmall, sampleBad]).2 sampleNow).2).length =
          ([sampleSmall, sampleBad] : List KMLFile).length
      ∧ ∀ i : Nat,
          ((save_analysis_to_excel [sampleSmall, sampleBad]
            (mergeLoop [sampleSmall, sampleBad]).2 sampleNow).2).get? i =
            (([sampleSmall, sampleBad] : List KMLFile).get? i).map fun f =>
              { fileName := f.name
                placemarksCount := (mergeLoop [sampleSmall, sampleBad]).2
                fileSizeMB := (f.size : ℚ) / (1024 * 1024) })
    ∧ ((save_analysis_to_excel [sampleSmall, sampleBad]
        (mergeLoop [sampleSmall, sampleBad]).2 sampleNow).2).length = 2 := by
  constructor
  · exact report_one_row_per_requested_source [sampleSmall, sampleBad]
      [sampleSmall, sampleBad] sampleNow sampleNow (by decide)
  · decide

/-- C9 counterexample: the claim that no partially-written output file is
ever left visible at the final path is FALSE of the code — the write goes
straight to the final path, so a write that fails after 2 of 4 bytes
leaves those 2 bytes there: neither the full content nor an absent file. -/
theorem direct_write_leaves_partial_file :
    ¬ (fileAtOutputPath { data := [60, 107, 109, 108], failAfter := some 2 } =
          some [60, 107, 109, 108]
        ∨ fileAtOutputPath { data := [60, 107, 109, 108], failAfter := some 2 } = none) := by
  decide

/-- C9 (amended): the code opens the final output path directly and
writes once, with no temporary file and no atomic rename, so a write that
fails after `k` bytes leaves exactly those first `k` bytes visible at the
final output path. -/
theorem failed_write_leaves_partial_bytes (w : WriteAttempt) (k : Nat)
    (h : w.failAfter = some k) :
    fileAtOutputPath w = some (w.data.take k) := by
  unfold fileAtOutputPath
  rw [h]

/-- C9 witness: a write of 4 bytes failing after 1 byte leaves that one
byte at the output path. -/
theorem failed_write_leaves_partial_bytes_witness :
    fileAtOutputPath { data := [60, 107, 109, 108], failAfter := some 1 } =
      some (([60, 107, 109, 108] : List Nat).take 1)
    ∧ ([60, 107, 109, 108] : List Nat).take 1 = [60] :=
  ⟨failed_write_leaves_partial_bytes { data := [60, 107, 109, 108], failAfter := some 1 } 1 rfl,
    by decide⟩

/-- C10: duplicate selection is nowhere rejected: the input `"1,1"` on a
nonempty listing selects the first file twice (so the at-least-two check
passes), and merging a file submitted twice contributes its placemarks
and its count twice. -/
theorem duplicate_selection_duplicates_placemarks
    (kml_files : List (String × Nat × ℚ)) (hk : 0 < kml_files.length)
    (f : KMLFile) :
    selectionStep kml_files "1,1" =
      SelectionStep.selected [(kml_files.get ⟨0, hk⟩).1, (kml_files.get ⟨0, hk⟩).1]
    ∧ (mergeLoop [f, f]).1 = extractedPlacemarks f ++ extractedPlacemarks f
    ∧ (mergeLoop [f, f]).2 = 2 * (extractedPlacemarks f).length := by
  have h4 : indexSelect kml_files "1" = some ((kml_files.get ⟨0, hk⟩).1) := by
    have hred : indexSelect kml_files "1" =
        if 1 ≤ 1 ∧ 1 ≤ kml_files.length then (kml_files.get? 0).map Prod.fst
        else none := rfl
    rw [hred, if_pos ⟨le_refl 1, hk⟩, List.get?_eq_get hk]
    rfl
  have h5 : selectedFilesOf kml_files "1,1" =
      [(kml_files.get ⟨0, hk⟩).1, (kml_files.get ⟨0, hk⟩).1] := by
    unfold selectedFilesOf
    rw [if_neg (show ¬("1,1" : String) = "" by decide),
      show pySplit ',' "1,1" = ["1", "1"] by decide]
    simp [List.filterMap_cons, h4]
  refine ⟨?_, ?_, ?_⟩
  · unfold selectionStep
    rw [show pyLower (pyStrip "1,1") = "1,1" by decide]
    rw [if_neg (show ¬("1,1" : String) = "e" by decide), h5]
    rw [if_neg (show ¬(("1,1" : String) ≠ "" ∧
      ([(kml_files.get ⟨0, hk⟩).1, (kml_files.get ⟨0, hk⟩).1] : List String) = []) from
        fun hcon => List.noConfusion hcon.2)]
    rw [if_neg (show ¬(([(kml_files.get ⟨0, hk⟩).1,
        (kml_files.get ⟨0, hk⟩).1] : List String).length < 2) by simp)]
  · rw [mergeLoop_eq]
    simp
  · rw [mergeLoop_eq]
    simp
    omega

/-- C10 witness: `"1,1"` on the demo listing selects `A.kml` twice, and
merging the one-placemark source twice yields 2 placemarks. -/
theorem duplicate_selection_duplicates_placemarks_witness :
    (selectionStep demoListing "1,1" =
        SelectionStep.selected [(demoListing.get ⟨0, by decide⟩).1,
          (demoListing.get ⟨0, by decide⟩).1]
      ∧ (mergeLoop [sampleSmall, sampleSmall]).1 =
          extractedPlacemarks sampleSmall ++ extractedPlacemarks sampleSmall
      ∧ (mergeLoop [sampleSmall, sampleSmall]).2 =
          2 * (extractedPlacemarks sampleSmall).length)
    ∧ selectionStep demoListing "1,1" = SelectionStep.selected ["A.kml", "A.kml"]
    ∧ (mergeLoop [sampleSmall, sampleSmall]).2 = 2 := by
  refine ⟨duplicate_selection_duplicates_placemarks demoListing (by decide) sampleSmall,
    by decide, by decide⟩

end UFEDKMLmerge
